import Mathlib

/-!
Verification of the polling/refresh engine of `osu_to_prometheus` (`main.py`).

The embedding models:
* JSON values (`JValue`) as integers, strings and ordered association-list
  objects (Python dicts preserve insertion order; assignment updates in
  place or appends);
* Python exceptions (`PyExc`) that the relevant code can raise;
* the `ErrorTracker` class (lines 93-106);
* `get_token` (lines 109-123);
* the body of the `while True` refresh loop of `main` (lines 153-191) as a
  trace-producing interpreter: the network is an oracle (`World`) giving the
  outcome of each HTTP call, and observable actions (requests issued, log
  lines, `process_error` calls, gauge updates, sleeps) are recorded as
  `Event`s.  A cycle ends in `completed` (the `time.sleep` is reached),
  `exited` (the tracker called `exit(1)`), or `crashed` (an uncaught Python
  exception propagated out of `main`).
-/

/-- JSON values as returned by `response.json()`. Numbers are modelled as
integers (their numeric content is opaque to the control flow). -/
inductive JValue where
  | num (n : Int)
  | str (s : String)
  | obj (fields : List (String × JValue))
deriving Repr

/-- The Python exceptions the modelled code can raise. -/
inductive PyExc where
  | keyError (key : String)
  | typeError
  | attributeError
  | valueError (msg : String)
  | requestException (msg : String)
deriving Repr, DecidableEq

/-- Dictionary lookup `d[k]` on an insertion-ordered association list. -/
def lookup? : List (String × JValue) → String → Option JValue
  | [], _ => none
  | (k, v) :: rest, key => if k = key then some v else lookup? rest key

/-- Dictionary assignment `d[k] = v`: update in place if the key exists,
append otherwise (Python dict semantics). -/
def setKey : List (String × JValue) → String → JValue → List (String × JValue)
  | [], key, v => [(key, v)]
  | (k, v') :: rest, key, v =>
      if k = key then (k, v) :: rest else (k, v') :: setKey rest key v

/-- Subscripting `d[k]` on an arbitrary value: `KeyError` when the key is
absent from a dict, `TypeError` when the value is not a dict. -/
def getItem (v : JValue) (k : String) : Except PyExc JValue :=
  match v with
  | .obj fields =>
      match lookup? fields k with
      | some x => .ok x
      | none => .error (.keyError k)
  | _ => .error .typeError

/-- `labels = ["user_id", "username"]` (main.py line 13). -/
def labels : List String := ["user_id", "username"]

/-- The keys of the module-level `gauges` dict (main.py lines 14-90), in
source order.  `key in gauges` in Python tests membership in these keys. -/
def gauges : List String :=
  ["total_hits", "play_count", "ranked_score", "total_score",
   "global_rank", "country_rank", "level", "pp", "hit_accuracy",
   "grade_counts_ss", "grade_counts_ssh", "grade_counts_s",
   "grade_counts_sh", "grade_counts_a", "play_time"]

/-- The `ErrorTracker` class state (main.py lines 93-96). -/
structure ErrorTracker where
  intervals_with_errors : Nat
  max_intervals_with_errors : Nat
deriving Repr, DecidableEq

/-- `ErrorTracker.__init__` (lines 94-96). -/
def ErrorTracker.init (maxIntervals : Nat) : ErrorTracker :=
  ⟨0, maxIntervals⟩

/-- `ErrorTracker.process_error` (lines 98-103): increment the count; if it
now exceeds the maximum, `exit(1)` (modelled as `.error 1`, the process exit
code). The message is only logged (the interpreter records it as an event). -/
def ErrorTracker.process_error (t : ErrorTracker) : Except Nat ErrorTracker :=
  let t' : ErrorTracker :=
    ⟨t.intervals_with_errors + 1, t.max_intervals_with_errors⟩
  if t'.intervals_with_errors > t'.max_intervals_with_errors then
    .error 1
  else
    .ok t'

/-- `ErrorTracker.reset` (lines 105-106).  Defined in the source but never
called from `main`. -/
def ErrorTracker.reset (t : ErrorTracker) : ErrorTracker :=
  { t with intervals_with_errors := 0 }

/-- `n` consecutive calls to `process_error` with no reset in between;
stops with the exit code as soon as one call terminates the process. -/
def process_errors_iter (t : ErrorTracker) : Nat → Except Nat ErrorTracker
  | 0 => .ok t
  | n + 1 =>
      match t.process_error with
      | .error c => .error c
      | .ok t' => process_errors_iter t' n

/-- An HTTP response: status code, decoded JSON body (`response.json()`) and
raw text (`response.content.decode("utf-8")`). -/
structure HttpResponse where
  statusCode : Nat
  body : JValue
  content : String

/-- Outcome of one `requests` call: either a `requests.RequestException`
is raised, or a response object is returned. -/
inductive FetchOutcome where
  | raise (msg : String)
  | resp (r : HttpResponse)

/-- `get_token` (lines 109-123): POST the token endpoint; on a non-200 status
raise `ValueError("Failed to fetch token.")`, otherwise return
`response.json()["access_token"]`. -/
def get_token (resp : HttpResponse) : Except PyExc JValue :=
  if resp.statusCode ≠ 200 then
    .error (.valueError "Failed to fetch token.")
  else
    getItem resp.body "access_token"

/-- The network oracle: the outcome of `request_user_data(token, user_id)`
for each token/user pair, and the response of the token endpoint. -/
structure World where
  fetch : JValue → String → FetchOutcome
  tokenResponse : HttpResponse

/-- Observable actions of one run of the refresh loop. -/
inductive Event where
  | fetchCall (token : JValue) (userId : String)
  | tokenCall
  | warnAuth
  | warnHttp (userId : String) (status : Nat) (content : String)
  | procError (msg : String)
  | gaugeSet (key : String) (labelValues : List (String × JValue))
      (value : JValue)
  | updateCompleted (userId : String)
  | sleep
deriving Repr

/-- Whether an event is a `process_error` call. -/
def Event.isProcError : Event → Bool
  | .procError _ => true
  | _ => false

/-- Whether an event is an issued user-data request. -/
def Event.isFetchCall : Event → Bool
  | .fetchCall _ _ => true
  | _ => false

/-- Whether an event is a gauge update. -/
def Event.isGaugeSet : Event → Bool
  | .gaugeSet _ _ _ => true
  | _ => false

/-- Lines 182-183: the flattening loop — for every `(key, value)` in the
grade-count dict, `stats["grade_counts_" + key] = value`. -/
def flattenGrades (stats gc : List (String × JValue)) :
    List (String × JValue) :=
  gc.foldl (fun s p => setKey s ("grade_counts_" ++ p.1) p.2) stats

/-- Lines 180-183: `stats = data["statistics"]`,
`stats["level"] = stats["level"]["current"]`, then for every
`(key, value)` in `stats["grade_counts"].items()` set
`stats["grade_counts_" + key] = value`.  The `grade_counts` key itself is
never removed.  Any failed subscript propagates as an exception. -/
def processRecord (data : JValue) : Except PyExc (List (String × JValue)) :=
  match getItem data "statistics" with
  | .error e => .error e
  | .ok statsV =>
      match statsV with
      | .obj stats0 =>
          match getItem statsV "level" with
          | .error e => .error e
          | .ok levelV =>
              match getItem levelV "current" with
              | .error e => .error e
              | .ok cur =>
                  let stats1 := setKey stats0 "level" cur
                  match lookup? stats1 "grade_counts" with
                  | none => .error (.keyError "grade_counts")
                  | some gcV =>
                      match gcV with
                      | .obj gc => .ok (flattenGrades stats1 gc)
                      | _ => .error .attributeError
      | _ => .error .typeError

/-- Lines 186-187: the metric sink rule for one routed `(key, value)` pair —
`if key in gauges: gauges[key].labels(user_id=data["id"],
username=data["username"]).set(value)`. -/
def sinkRecord (data : JValue) (key : String) (value : JValue) :
    Except PyExc (List Event) :=
  if key ∈ gauges then
    match getItem data "id" with
    | .error e => .error e
    | .ok uid =>
        match getItem data "username" with
        | .error e => .error e
        | .ok uname =>
            .ok [.gaugeSet key [("user_id", uid), ("username", uname)] value]
  else
    .ok []

/-- Lines 185-187: route every `(key, value)` of the flattened stats through
the sink, in insertion order. -/
def statsToEvents (data : JValue) :
    List (String × JValue) → Except PyExc (List Event)
  | [] => .ok []
  | (k, v) :: rest =>
      match sinkRecord data k v with
      | .error e => .error e
      | .ok evs1 =>
          match statsToEvents data rest with
          | .error e => .error e
          | .ok evs2 => .ok (evs1 ++ evs2)

/-- Lines 178-189: processing of a 200 response body, ending with the
completion log line (which reads `data["username"]`). -/
def handleSuccess (userId : String) (data : JValue) :
    Except PyExc (List Event) :=
  match processRecord data with
  | .error e => .error e
  | .ok stats =>
      match statsToEvents data stats with
      | .error e => .error e
      | .ok evs =>
          match getItem data "username" with
          | .error e => .error e
          | .ok _ => .ok (evs ++ [.updateCompleted userId])

/-- What one iteration of the per-identity `for` loop does next. -/
inductive StepResult where
  | next (token : JValue) (tr : ErrorTracker) (evs : List Event)
  | brk (token : JValue) (tr : ErrorTracker) (evs : List Event)
  | exitProc (code : Nat) (evs : List Event)
  | crash (e : PyExc) (evs : List Event)

/-- Prepend events already recorded before the rest of the iteration ran. -/
def StepResult.prependEvs (pre : List Event) : StepResult → StepResult
  | .next t tr evs => .next t tr (pre ++ evs)
  | .brk t tr evs => .brk t tr (pre ++ evs)
  | .exitProc c evs => .exitProc c (pre ++ evs)
  | .crash e evs => .crash e (pre ++ evs)

/-- Lines 171-189: after the 401 handling, skip with a warning on a non-200
status, otherwise process the record (an exception there crashes `main`). -/
def afterAuth (tok : JValue) (tr : ErrorTracker) (uid : String)
    (r : HttpResponse) : StepResult :=
  if r.statusCode ≠ 200 then
    .next tok tr [.warnHttp uid r.statusCode r.content]
  else
    match handleSuccess uid r.body with
    | .error e => .crash e []
    | .ok evs => .next tok tr evs

/-- One iteration of the `for user_id in config["user_ids"]` loop
(lines 154-189).  Only the initial `request_user_data` call sits inside a
`try`/`except requests.RequestException` (lines 155-159); the `get_token`
call and the retried request of the 401 branch (lines 161-169) do not. -/
def stepUser (w : World) (tok : JValue) (tr : ErrorTracker) (uid : String) :
    StepResult :=
  match w.fetch tok uid with
  | .raise msg =>
      let m := "Exception on user data request, aborting update: " ++ msg
      match tr.process_error with
      | .error c => .exitProc c [.fetchCall tok uid, .procError m]
      | .ok tr' => .brk tok tr' [.fetchCall tok uid, .procError m]
  | .resp r =>
      if r.statusCode = 401 then
        match get_token w.tokenResponse with
        | .error e => .crash e [.fetchCall tok uid, .warnAuth, .tokenCall]
        | .ok newTok =>
            match w.fetch newTok uid with
            | .raise m =>
                .crash (.requestException m)
                  [.fetchCall tok uid, .warnAuth, .tokenCall,
                   .fetchCall newTok uid]
            | .resp r2 =>
                if r2.statusCode = 401 then
                  let m :=
                    "Authentication still denied after fetching new token. Aborting update."
                  match tr.process_error with
                  | .error c =>
                      .exitProc c
                        [.fetchCall tok uid, .warnAuth, .tokenCall,
                         .fetchCall newTok uid, .procError m]
                  | .ok tr' =>
                      .brk newTok tr'
                        [.fetchCall tok uid, .warnAuth, .tokenCall,
                         .fetchCall newTok uid, .procError m]
                else
                  StepResult.prependEvs
                    [.fetchCall tok uid, .warnAuth, .tokenCall,
                     .fetchCall newTok uid]
                    (afterAuth newTok tr uid r2)
      else
        StepResult.prependEvs [.fetchCall tok uid] (afterAuth tok tr uid r)

/-- How one pass over the identities (and hence the process) ends. -/
inductive CycleResult where
  | completed (token : JValue) (tr : ErrorTracker)
  | exited (code : Nat)
  | crashed (e : PyExc)

/-- The per-identity `for` loop of one cycle (lines 154-189): `completed`
means the loop fell through or `break` was reached, so execution continues
at `time.sleep` (line 191). -/
def runUsers (w : World) :
    JValue → ErrorTracker → List String → CycleResult × List Event
  | tok, tr, [] => (.completed tok tr, [])
  | tok, tr, uid :: rest =>
      match stepUser w tok tr uid with
      | .next tok' tr' evs =>
          let p := runUsers w tok' tr' rest
          (p.1, evs ++ p.2)
      | .brk tok' tr' evs => (.completed tok' tr', evs)
      | .exitProc c evs => (.exited c, evs)
      | .crash e evs => (.crashed e, evs)

/-- Finitely many iterations of the `while True` loop (lines 153-191), the
network behaviour of cycle `i` given by the `i`-th `World`.  Each completed
cycle sleeps and re-enters the loop with the full identity list and whatever
token and tracker state the previous cycle left behind; `main` contains no
call to `ErrorTracker.reset`. -/
def runCycles (uids : List String) :
    JValue → ErrorTracker → List World → CycleResult × List Event
  | tok, tr, [] => (.completed tok tr, [])
  | tok, tr, w :: ws =>
      match runUsers w tok tr uids with
      | (.completed tok' tr', evs) =>
          let p := runCycles uids tok' tr' ws
          (p.1, evs ++ [.sleep] ++ p.2)
      | (res, evs) => (res, evs)

/-- The error count a run ends with, when it ends at a cycle boundary. -/
def finalCount : CycleResult × List Event → Option Nat
  | (.completed _ tr, _) => some tr.intervals_with_errors
  | _ => none

/-- A well-formed user record as served by the stats endpoint. -/
def sampleRecord : JValue :=
  .obj [("id", .num 7), ("username", .str "foo"),
        ("statistics", .obj
          [("pp", .num 100),
           ("level", .obj [("current", .num 42)]),
           ("grade_counts", .obj [("s", .num 3), ("ss", .num 1)])])]

/-- A 200 response carrying `sampleRecord`. -/
def sampleResponse : HttpResponse := ⟨200, sampleRecord, ""⟩

/-- A token-endpoint response: 200 with an access token. -/
def tokenOkResponse : HttpResponse :=
  ⟨200, .obj [("access_token", .str "t2")], ""⟩

/-- A failing token-endpoint response. -/
def badTokenResponse : HttpResponse := ⟨500, .obj [], "oops"⟩

/-- A record lacking the `statistics` key. -/
def malformedRecord : JValue := .obj [("id", .num 7), ("username", .str "foo")]

/-- Every user-data request raises a `requests` exception. -/
def wErr : World := ⟨fun _ _ => .raise "boom", tokenOkResponse⟩

/-- Every user-data request succeeds with `sampleRecord`. -/
def wClean : World := ⟨fun _ _ => .resp sampleResponse, tokenOkResponse⟩

/-- Every user-data request returns 200 with a malformed record. -/
def wMalformed : World :=
  ⟨fun _ _ => .resp ⟨200, malformedRecord, ""⟩, tokenOkResponse⟩

/-- Requests with the stale token "t0" get 401; after the refresh hands out
"t2", the retried request raises a timeout. -/
def wRetryTimeout : World :=
  ⟨fun tok _ =>
    match tok with
    | .str "t0" => .resp ⟨401, .obj [], "unauthorized"⟩
    | _ => .raise "timeout",
   tokenOkResponse⟩

/-- Every user-data request gets 401, before and after the refresh. -/
def wAuthDenied : World :=
  ⟨fun _ _ => .resp ⟨401, .obj [], "unauthorized"⟩, tokenOkResponse⟩

/-- Every user-data request gets a 500 with a body. -/
def wHttp500 : World :=
  ⟨fun _ _ => .resp ⟨500, .obj [], "server error"⟩, tokenOkResponse⟩

/-- User-data requests get 401 and the token endpoint is down. -/
def wTokenDown : World :=
  ⟨fun _ _ => .resp ⟨401, .obj [], "unauthorized"⟩, badTokenResponse⟩

/-! ## ErrorTracker threshold behaviour (C1) -/

theorem process_error_ok (c m : Nat) (h : c + 1 ≤ m) :
    ErrorTracker.process_error ⟨c, m⟩ = .ok ⟨c + 1, m⟩ := by
  simp [ErrorTracker.process_error, Nat.not_lt.mpr h]

theorem process_error_fatal (c m : Nat) (h : m < c + 1) :
    ErrorTracker.process_error ⟨c, m⟩ = .error 1 := by
  simp [ErrorTracker.process_error, h]

theorem process_errors_iter_ok (n : Nat) :
    ∀ c m : Nat, c + n ≤ m →
      process_errors_iter ⟨c, m⟩ n = .ok ⟨c + n, m⟩ := by
  induction n with
  | zero => intro c m _; simp [process_errors_iter]
  | succ n ih =>
      intro c m h
      have h1 : c + 1 ≤ m := by omega
      have h2 : (c + 1) + n ≤ m := by omega
      have e : c + (n + 1) = (c + 1) + n := by omega
      rw [e]
      simp only [process_errors_iter, process_error_ok c m h1]
      exact ih (c + 1) m h2

theorem process_errors_iter_fatal (n : Nat) :
    ∀ c m : Nat, c + n = m →
      process_errors_iter ⟨c, m⟩ (n + 1) = .error 1 := by
  induction n with
  | zero =>
      intro c m h
      simp [process_errors_iter, process_error_fatal c m (by omega)]
  | succ n ih =>
      intro c m h
      have h1 : c + 1 ≤ m := by omega
      simp [process_errors_iter, process_error_ok c m h1]
      exact ih (c + 1) m (by omega)

/-- C1: starting from a fresh tracker with configured maximum `maxI`,
`maxI + 1` consecutive `process_error` calls with no reset terminate the
process with exit code 1 (inside the call that makes the count exceed the
maximum), while any `k ≤ maxI` calls do not terminate and leave the running
count at exactly `k` — each call having incremented it by exactly one. -/
theorem c1_error_tracker_threshold (maxI : Nat) :
    process_errors_iter (ErrorTracker.init maxI) (maxI + 1) = .error 1
    ∧ process_errors_iter (ErrorTracker.init maxI) maxI = .ok ⟨maxI, maxI⟩
    ∧ ∀ k : Nat, k ≤ maxI →
        process_errors_iter (ErrorTracker.init maxI) k = .ok ⟨k, maxI⟩ := by
  refine ⟨process_errors_iter_fatal maxI 0 maxI (by omega), ?_, ?_⟩
  · have := process_errors_iter_ok maxI 0 maxI (by omega)
    simpa [ErrorTracker.init] using this
  · intro k hk
    have := process_errors_iter_ok k 0 maxI (by omega)
    simpa [ErrorTracker.init] using this

/-- C1 witness: at maximum 2, the third call exits with code 1, while one
and two calls leave counts 1 and 2 without terminating. -/
theorem c1_error_tracker_threshold_witness :
    process_errors_iter (ErrorTracker.init 2) 3 = .error 1
    ∧ process_errors_iter (ErrorTracker.init 2) 2 = .ok ⟨2, 2⟩
    ∧ process_errors_iter (ErrorTracker.init 2) 1 = .ok ⟨1, 2⟩ :=
  ⟨(c1_error_tracker_threshold 2).1, (c1_error_tracker_threshold 2).2.1,
   (c1_error_tracker_threshold 2).2.2 1 (by decide)⟩

/-! ## The error counter is never reset by the loop (C2) -/

theorem process_error_ok_inv (tr tr2 : ErrorTracker)
    (h : tr.process_error = .ok tr2) :
    tr2 = ⟨tr.intervals_with_errors + 1, tr.max_intervals_with_errors⟩ := by
  simp only [ErrorTracker.process_error] at h
  split at h
  · exact absurd h (by simp)
  · injection h with h'
    exact h'.symm

theorem sinkRecord_no_procError (data : JValue) (k : String) (v : JValue)
    (evs : List Event) (h : sinkRecord data k v = .ok evs) :
    evs.countP Event.isProcError = 0 := by
  by_cases hk : k ∈ gauges
  · simp only [sinkRecord, if_pos hk] at h
    cases hid : getItem data "id" with
    | error e => simp [hid] at h
    | ok uid =>
        simp only [hid] at h
        cases hn : getItem data "username" with
        | error e => simp [hn] at h
        | ok un =>
            simp only [hn] at h
            injection h with h'
            subst h'
            simp [List.countP_cons, Event.isProcError]
  · simp only [sinkRecord, if_neg hk] at h
    injection h with h'
    subst h'
    rfl

theorem statsToEvents_no_procError (data : JValue) :
    ∀ stats evs, statsToEvents data stats = .ok evs →
      evs.countP Event.isProcError = 0 := by
  intro stats
  induction stats with
  | nil =>
      intro evs h
      simp only [statsToEvents] at h
      injection h with h'
      subst h'
      rfl
  | cons kv rest ih =>
      obtain ⟨k, v⟩ := kv
      intro evs h
      simp only [statsToEvents] at h
      cases h1 : sinkRecord data k v with
      | error e => simp [h1] at h
      | ok evs1 =>
          simp only [h1] at h
          cases h2 : statsToEvents data rest with
          | error e => simp [h2] at h
          | ok evs2 =>
              simp only [h2] at h
              injection h with h'
              subst h'
              rw [List.countP_append,
                  sinkRecord_no_procError data k v evs1 h1, ih evs2 h2]

theorem handleSuccess_no_procError (uid : String) (data : JValue)
    (evs : List Event) (h : handleSuccess uid data = .ok evs) :
    evs.countP Event.isProcError = 0 := by
  simp only [handleSuccess] at h
  cases h1 : processRecord data with
  | error e => simp [h1] at h
  | ok stats =>
      simp only [h1] at h
      cases h2 : statsToEvents data stats with
      | error e => simp [h2] at h
      | ok evs1 =>
          simp only [h2] at h
          cases h3 : getItem data "username" with
          | error e => simp [h3] at h
          | ok un =>
              simp only [h3] at h
              injection h with h'
              subst h'
              rw [List.countP_append, statsToEvents_no_procError data stats evs1 h2]
              simp [List.countP_cons, Event.isProcError]

theorem afterAuth_next_or_crash (tok : JValue) (tr : ErrorTracker)
    (uid : String) (r : HttpResponse) :
    (∃ evs, afterAuth tok tr uid r = .next tok tr evs
        ∧ evs.countP Event.isProcError = 0)
    ∨ ∃ e, afterAuth tok tr uid r = .crash e [] := by
  simp only [afterAuth]
  split
  · exact Or.inl ⟨_, rfl, by simp [List.countP_cons, Event.isProcError]⟩
  · cases hh : handleSuccess uid r.body with
    | error e => exact Or.inr ⟨e, rfl⟩
    | ok evs =>
        exact Or.inl ⟨evs, rfl, handleSuccess_no_procError uid r.body evs hh⟩

theorem stepUser_next_inv (w : World) (tok : JValue) (tr : ErrorTracker)
    (uid : String) (tok' : JValue) (tr' : ErrorTracker) (evs : List Event)
    (h : stepUser w tok tr uid = .next tok' tr' evs) :
    tr' = tr ∧ evs.countP Event.isProcError = 0 := by
  simp only [stepUser] at h
  cases hf : w.fetch tok uid with
  | raise msg =>
      simp only [hf] at h
      cases hp : tr.process_error <;> simp [hp] at h
  | resp r =>
      simp only [hf] at h
      by_cases h401 : r.statusCode = 401
      · simp only [if_pos h401] at h
        cases hg : get_token w.tokenResponse with
        | error e => simp [hg] at h
        | ok newTok =>
            simp only [hg] at h
            cases hf2 : w.fetch newTok uid with
            | raise m => simp [hf2] at h
            | resp r2 =>
                simp only [hf2] at h
                by_cases h401b : r2.statusCode = 401
                · simp only [if_pos h401b] at h
                  cases hp : tr.process_error <;> simp [hp] at h
                · simp only [if_neg h401b] at h
                  rcases afterAuth_next_or_crash newTok tr uid r2 with
                    ⟨evs1, ha, hc⟩ | ⟨e, ha⟩
                  · rw [ha] at h
                    simp only [StepResult.prependEvs] at h
                    injection h with h1 h2 h3
                    refine ⟨h2.symm, ?_⟩
                    rw [← h3, List.countP_append, hc]
                    simp [List.countP_cons, Event.isProcError]
                  · rw [ha] at h
                    simp [StepResult.prependEvs] at h
      · simp only [if_neg h401] at h
        rcases afterAuth_next_or_crash tok tr uid r with
          ⟨evs1, ha, hc⟩ | ⟨e, ha⟩
        · rw [ha] at h
          simp only [StepResult.prependEvs] at h
          injection h with h1 h2 h3
          refine ⟨h2.symm, ?_⟩
          rw [← h3, List.countP_append, hc]
          simp [List.countP_cons, Event.isProcError]
        · rw [ha] at h
          simp [StepResult.prependEvs] at h

theorem stepUser_brk_inv (w : World) (tok : JValue) (tr : ErrorTracker)
    (uid : String) (tok' : JValue) (tr' : ErrorTracker) (evs : List Event)
    (h : stepUser w tok tr uid = .brk tok' tr' evs) :
    tr' = ⟨tr.intervals_with_errors + 1, tr.max_intervals_with_errors⟩
    ∧ evs.countP Event.isProcError = 1 := by
  simp only [stepUser] at h
  cases hf : w.fetch tok uid with
  | raise msg =>
      simp only [hf] at h
      cases hp : tr.process_error with
      | error c => simp [hp] at h
      | ok tr2 =>
          simp only [hp] at h
          injection h with h1 h2 h3
          refine ⟨h2 ▸ process_error_ok_inv tr tr2 hp, ?_⟩
          rw [← h3]
          simp [List.countP_cons, Event.isProcError]
  | resp r =>
      simp only [hf] at h
      by_cases h401 : r.statusCode = 401
      · simp only [if_pos h401] at h
        cases hg : get_token w.tokenResponse with
        | error e => simp [hg] at h
        | ok newTok =>
            simp only [hg] at h
            cases hf2 : w.fetch newTok uid with
            | raise m => simp [hf2] at h
            | resp r2 =>
                simp only [hf2] at h
                by_cases h401b : r2.statusCode = 401
                · simp only [if_pos h401b] at h
                  cases hp : tr.process_error with
                  | error c => simp [hp] at h
                  | ok tr2 =>
                      simp only [hp] at h
                      injection h with h1 h2 h3
                      refine ⟨h2 ▸ process_error_ok_inv tr tr2 hp, ?_⟩
                      rw [← h3]
                      simp [List.countP_cons, Event.isProcError]
                · simp only [if_neg h401b] at h
                  rcases afterAuth_next_or_crash newTok tr uid r2 with
                    ⟨evs1, ha, hc⟩ | ⟨e, ha⟩ <;>
                    rw [ha] at h <;> simp [StepResult.prependEvs] at h
      · simp only [if_neg h401] at h
        rcases afterAuth_next_or_crash tok tr uid r with
          ⟨evs1, ha, hc⟩ | ⟨e, ha⟩ <;>
          rw [ha] at h <;> simp [StepResult.prependEvs] at h

theorem runUsers_count (w : World) (uids : List String) :
    ∀ tok tr tok' tr' evs,
      runUsers w tok tr uids = (.completed tok' tr', evs) →
      tr'.intervals_with_errors
          = tr.intervals_with_errors + evs.countP Event.isProcError
      ∧ tr'.max_intervals_with_errors = tr.max_intervals_with_errors := by
  induction uids with
  | nil =>
      intro tok tr tok' tr' evs h
      simp only [runUsers, Prod.mk.injEq] at h
      obtain ⟨h1, h2⟩ := h
      cases h1
      subst h2
      simp
  | cons uid rest ih =>
      intro tok tr tok' tr' evs h
      simp only [runUsers] at h
      cases hs : stepUser w tok tr uid with
      | next tok2 tr2 evs2 =>
          simp only [hs] at h
          rcases hr : runUsers w tok2 tr2 rest with ⟨res, evs3⟩
          rw [hr] at h
          simp only [Prod.mk.injEq] at h
          obtain ⟨h1, h2⟩ := h
          subst h1
          subst h2
          obtain ⟨ht, hc⟩ := stepUser_next_inv w tok tr uid tok2 tr2 evs2 hs
          obtain ⟨hcount, hmax⟩ := ih tok2 tr2 tok' tr' evs3 hr
          subst ht
          constructor
          · rw [List.countP_append, hc, hcount]
            omega
          · exact hmax
      | brk tok2 tr2 evs2 =>
          simp only [hs] at h
          simp only [Prod.mk.injEq] at h
          obtain ⟨h1, h2⟩ := h
          cases h1
          subst h2
          obtain ⟨ht, hc⟩ := stepUser_brk_inv w tok tr uid tok' tr' evs2 hs
          subst ht
          simp [hc]
      | exitProc c evs2 => simp [hs] at h
      | crash e evs2 => simp [hs] at h

theorem runCycles_count (uids : List String) (ws : List World) :
    ∀ tok tr tok' tr' evs,
      runCycles uids tok tr ws = (.completed tok' tr', evs) →
      tr'.intervals_with_errors
          = tr.intervals_with_errors + evs.countP Event.isProcError
      ∧ tr'.max_intervals_with_errors = tr.max_intervals_with_errors := by
  induction ws with
  | nil =>
      intro tok tr tok' tr' evs h
      simp only [runCycles, Prod.mk.injEq] at h
      obtain ⟨h1, h2⟩ := h
      cases h1
      subst h2
      simp
  | cons w ws ih =>
      intro tok tr tok' tr' evs h
      simp only [runCycles] at h
      rcases hu : runUsers w tok tr uids with ⟨res, evs1⟩
      rw [hu] at h
      cases res with
      | completed tok2 tr2 =>
          simp only at h
          rcases hc : runCycles uids tok2 tr2 ws with ⟨res2, evs2⟩
          rw [hc] at h
          simp only at h
          simp only [Prod.mk.injEq] at h
          obtain ⟨h1, h2⟩ := h
          subst h1
          subst h2
          obtain ⟨hcount1, hmax1⟩ := runUsers_count w uids tok tr tok2 tr2 evs1 hu
          obtain ⟨hcount2, hmax2⟩ := ih tok2 tr2 tok' tr' evs2 hc
          constructor
          · rw [List.countP_append, List.countP_append, hcount2, hcount1]
            simp [List.countP_cons, Event.isProcError]
            omega
          · rw [hmax2, hmax1]
      | exited c =>
          simp only at h
          simp only [Prod.mk.injEq] at h
          exact absurd h.1 (by simp)
      | crashed e =>
          simp only at h
          simp only [Prod.mk.injEq] at h
          exact absurd h.1 (by simp)

/-- C2 (amended): the refresh loop never resets the error counter —
`ErrorTracker.reset` exists but `main` never calls it.  Over any sequence of
cycles that ends at a cycle boundary, the final count equals the initial
count plus the number of `process_error` calls made; in particular a cycle
during which no error is recorded leaves the count unchanged rather than
zeroing it, so errors in cycles separated by clean cycles keep accumulating
toward the fatal threshold. -/
theorem c2_counter_never_reset (uids : List String) (ws : List World)
    (tok : JValue) (tr : ErrorTracker) (tok' : JValue) (tr' : ErrorTracker)
    (evs : List Event)
    (h : runCycles uids tok tr ws = (.completed tok' tr', evs)) :
    tr'.intervals_with_errors
        = tr.intervals_with_errors + evs.countP Event.isProcError
    ∧ tr'.max_intervals_with_errors = tr.max_intervals_with_errors :=
  runCycles_count uids ws tok tr tok' tr' evs h

/-- C2 counterexample: one cycle with a transport error (one `process_error`
call) followed by one fully clean cycle.  Were the claim true, the counter
visible at the next cycle boundary would be 0; the code leaves it at 1. -/
theorem c2_reset_counterexample :
    finalCount (runCycles ["1"] (.str "t0") (ErrorTracker.init 5)
        [wErr, wClean]) = some 1
    ∧ (1 : Nat) ≠ 0 :=
  ⟨by rfl, by decide⟩

/-- C2 witness: one errored cycle under `wErr`, starting from a fresh
tracker with maximum 5, ends with count 1 = 0 + 1 `process_error` call. -/
theorem c2_counter_never_reset_witness :
    (ErrorTracker.mk 1 5).intervals_with_errors
        = (ErrorTracker.init 5).intervals_with_errors
          + ([Event.fetchCall (.str "t0") "1",
              Event.procError
                "Exception on user data request, aborting update: boom",
              Event.sleep].countP Event.isProcError)
    ∧ (ErrorTracker.mk 1 5).max_intervals_with_errors
        = (ErrorTracker.init 5).max_intervals_with_errors :=
  c2_counter_never_reset ["1"] [wErr] (.str "t0") (ErrorTracker.init 5)
    (.str "t0") ⟨1, 5⟩
    [Event.fetchCall (.str "t0") "1",
     Event.procError "Exception on user data request, aborting update: boom",
     Event.sleep]
    (by rfl)

/-! ## Malformed records crash the process (C3) -/

/-- C3 (amended): a fetched 200 record in which `statistics` is absent,
`level.current` is absent or ill-shaped, or `grade_counts` is absent, makes
the record processing raise a Python exception (`KeyError` / `TypeError`),
and that exception propagates uncaught out of the loop: the process crashes
on the spot, the identity is not merely skipped, and no further identity of
the cycle is fetched.  Such a record is fatal, not logged-and-skipped. -/
theorem c3_malformed_record_fatal :
    (∀ (w : World) (tok : JValue) (tr : ErrorTracker) (uid : String)
        (rest : List String) (r : HttpResponse) (e : PyExc),
      w.fetch tok uid = .resp r → r.statusCode = 200 →
      handleSuccess uid r.body = .error e →
      runUsers w tok tr (uid :: rest) = (.crashed e, [.fetchCall tok uid]))
    ∧ (∀ d : List (String × JValue), lookup? d "statistics" = none →
        processRecord (.obj d) = .error (.keyError "statistics"))
    ∧ (∀ (d stats0 : List (String × JValue)) (lv : JValue) (e : PyExc),
        lookup? d "statistics" = some (.obj stats0) →
        lookup? stats0 "level" = some lv →
        getItem lv "current" = .error e →
        processRecord (.obj d) = .error e)
    ∧ (∀ (d stats0 : List (String × JValue)) (lv cur : JValue),
        lookup? d "statistics" = some (.obj stats0) →
        lookup? stats0 "level" = some lv →
        getItem lv "current" = .ok cur →
        lookup? (setKey stats0 "level" cur) "grade_counts" = none →
        processRecord (.obj d) = .error (.keyError "grade_counts")) := by
  refine ⟨?_, ?_, ?_, ?_⟩
  · intro w tok tr uid rest r e hf h200 hhs
    have h401 : ¬ r.statusCode = 401 := by omega
    simp [runUsers, stepUser, afterAuth, StepResult.prependEvs,
          hf, h200, h401, hhs]
  · intro d h
    simp [processRecord, getItem, h]
  · intro d stats0 lv e h1 h2 h3
    have e1 : getItem (.obj d) "statistics" = .ok (.obj stats0) := by
      simp [getItem, h1]
    have e2 : getItem (.obj stats0) "level" = .ok lv := by
      simp [getItem, h2]
    simp [processRecord, e1, e2, h3]
  · intro d stats0 lv cur h1 h2 h3 h4
    have e1 : getItem (.obj d) "statistics" = .ok (.obj stats0) := by
      simp [getItem, h1]
    have e2 : getItem (.obj stats0) "level" = .ok lv := by
      simp [getItem, h2]
    simp [processRecord, e1, e2, h3, h4]

/-- C3 witness: under `wMalformed` (a 200 record with no `statistics` key)
the cycle crashes with `KeyError("statistics")` after a single request. -/
theorem c3_malformed_record_fatal_witness :
    runUsers wMalformed (.str "t0") (ErrorTracker.init 5) ["1", "2"]
        = (.crashed (.keyError "statistics"), [.fetchCall (.str "t0") "1"])
    ∧ processRecord malformedRecord = .error (.keyError "statistics") :=
  ⟨c3_malformed_record_fatal.1 wMalformed (.str "t0") (ErrorTracker.init 5)
      "1" ["2"] ⟨200, malformedRecord, ""⟩ (.keyError "statistics")
      rfl rfl rfl,
   c3_malformed_record_fatal.2.1
      [("id", .num 7), ("username", .str "foo")] rfl⟩

/-- C3 counterexample: the claim says a malformed record is skipped with a
log line, the loop continues to the next identity, and is never fatal.
Under `wMalformed` with identities `["1", "2"]` the process instead crashes
with `KeyError("statistics")` and identity "2" is never fetched: exactly one
request appears in the trace. -/
theorem c3_skip_counterexample :
    (runUsers wMalformed (.str "t0") (ErrorTracker.init 5) ["1", "2"]).1
        = CycleResult.crashed (.keyError "statistics")
    ∧ (runUsers wMalformed (.str "t0") (ErrorTracker.init 5)
        ["1", "2"]).2.countP Event.isFetchCall = 1 :=
  ⟨rfl, rfl⟩

/-! ## Transport failures: caught initially, uncaught on the retry (C4) -/

/-- C4 (amended): only the initial user-data request of an iteration sits in
the `try`/`except requests.RequestException` block.  A transport failure
there is caught and treated as a cycle-aborting error (one `process_error`
call, remaining identities skipped, exit only if the threshold is now
exceeded).  But a transport failure on the request retried after a
401-triggered token refresh propagates as an uncontrolled exception and
crashes the process. -/
theorem c4_transport_error_handling :
    (∀ (w : World) (tok : JValue) (tr : ErrorTracker) (uid : String)
        (rest : List String) (msg : String),
      w.fetch tok uid = .raise msg →
      runUsers w tok tr (uid :: rest) =
        ((if tr.intervals_with_errors + 1 > tr.max_intervals_with_errors
            then CycleResult.exited 1
            else CycleResult.completed tok
              ⟨tr.intervals_with_errors + 1, tr.max_intervals_with_errors⟩),
         [.fetchCall tok uid,
          .procError ("Exception on user data request, aborting update: "
            ++ msg)]))
    ∧ (∀ (w : World) (tok : JValue) (tr : ErrorTracker) (uid : String)
        (rest : List String) (r : HttpResponse) (newTok : JValue)
        (m : String),
      w.fetch tok uid = .resp r → r.statusCode = 401 →
      get_token w.tokenResponse = .ok newTok →
      w.fetch newTok uid = .raise m →
      runUsers w tok tr (uid :: rest) =
        (.crashed (.requestException m),
         [.fetchCall tok uid, .warnAuth, .tokenCall,
          .fetchCall newTok uid])) := by
  constructor
  · intro w tok tr uid rest msg hf
    by_cases hc :
        tr.intervals_with_errors + 1 > tr.max_intervals_with_errors <;>
      simp [runUsers, stepUser, ErrorTracker.process_error, hf, hc]
  · intro w tok tr uid rest r newTok m hf h401 hgt hf2
    simp [runUsers, stepUser, hf, h401, hgt, hf2]

/-- C4 counterexample: under `wRetryTimeout` the first request (stale token
"t0") gets 401, the refresh succeeds with token "t2", and the retried
request raises a timeout — which propagates uncaught and crashes the
process instead of being treated as a cycle-aborting error. -/
theorem c4_uncaught_retry_counterexample :
    runUsers wRetryTimeout (.str "t0") (ErrorTracker.init 5) ["1"]
      = (.crashed (.requestException "timeout"),
         [.fetchCall (.str "t0") "1", .warnAuth, .tokenCall,
          .fetchCall (.str "t2") "1"]) :=
  rfl

/-- C4 witness: both parts at concrete inputs — under `wErr` the initial
request's exception is caught and converted to a tracked cycle error; under
`wRetryTimeout` the retried request's exception crashes the process. -/
theorem c4_transport_error_handling_witness :
    runUsers wErr (.str "t0") (ErrorTracker.init 5) ["1", "2"]
        = ((if 0 + 1 > 5 then CycleResult.exited 1
            else CycleResult.completed (.str "t0") ⟨0 + 1, 5⟩),
           [.fetchCall (.str "t0") "1",
            .procError
              ("Exception on user data request, aborting update: "
                ++ "boom")])
    ∧ runUsers wRetryTimeout (.str "t0") (ErrorTracker.init 5) ["2"]
        = (.crashed (.requestException "timeout"),
           [.fetchCall (.str "t0") "2", .warnAuth, .tokenCall,
            .fetchCall (.str "t2") "2"]) :=
  ⟨c4_transport_error_handling.1 wErr (.str "t0") (ErrorTracker.init 5)
      "1" ["2"] "boom" rfl,
   c4_transport_error_handling.2 wRetryTimeout (.str "t0")
      (ErrorTracker.init 5) "2" [] ⟨401, .obj [], "unauthorized"⟩
      (.str "t2") "timeout" rfl rfl rfl rfl⟩

/-! ## 401 handling: one refresh, one retry, then abort (C6) -/

/-- C6: when the fetch for an identity returns 401, the orchestrator calls
the token endpoint exactly once, retries the fetch for the same identity
exactly once with the new token, and — when the retry is again 401 — makes
exactly one `process_error` call and skips every remaining identity of the
cycle: the trace of the whole cycle is exactly the two fetches, the one
token call and the one recorded error, the loop state carrying the replaced
token. -/
theorem c6_unauthorized_refresh_retry (w : World) (tok : JValue)
    (tr : ErrorTracker) (uid : String) (rest : List String)
    (r r2 : HttpResponse) (newTok : JValue)
    (hf : w.fetch tok uid = .resp r) (h401 : r.statusCode = 401)
    (hgt : get_token w.tokenResponse = .ok newTok)
    (hf2 : w.fetch newTok uid = .resp r2) (h401b : r2.statusCode = 401) :
    runUsers w tok tr (uid :: rest) =
      ((if tr.intervals_with_errors + 1 > tr.max_intervals_with_errors
          then CycleResult.exited 1
          else CycleResult.completed newTok
            ⟨tr.intervals_with_errors + 1, tr.max_intervals_with_errors⟩),
       [.fetchCall tok uid, .warnAuth, .tokenCall, .fetchCall newTok uid,
        .procError
          "Authentication still denied after fetching new token. Aborting update."]) := by
  by_cases hc :
      tr.intervals_with_errors + 1 > tr.max_intervals_with_errors <;>
    simp [runUsers, stepUser, ErrorTracker.process_error,
          hf, h401, hgt, hf2, h401b, hc]

/-- C6 witness: under `wAuthDenied` with two identities the cycle makes the
two fetches for identity "1", one token call, one `process_error`, and never
touches identity "2"; the cycle state keeps the refreshed token "t2". -/
theorem c6_unauthorized_refresh_retry_witness :
    runUsers wAuthDenied (.str "t0") (ErrorTracker.init 5) ["1", "2"]
      = ((if 0 + 1 > 5 then CycleResult.exited 1
          else CycleResult.completed (.str "t2") ⟨0 + 1, 5⟩),
         [.fetchCall (.str "t0") "1", .warnAuth, .tokenCall,
          .fetchCall (.str "t2") "1",
          .procError
            "Authentication still denied after fetching new token. Aborting update."]) :=
  c6_unauthorized_refresh_retry wAuthDenied (.str "t0")
    (ErrorTracker.init 5) "1" ["2"] ⟨401, .obj [], "unauthorized"⟩
    ⟨401, .obj [], "unauthorized"⟩ (.str "t2") rfl rfl rfl rfl rfl

/-! ## Transport error: one tracked error, cycle aborted, loop resumes (C7) -/

/-- C7: when the initial fetch for an identity raises a transport error,
exactly one cycle-error is recorded via `process_error`, no further identity
of the cycle is fetched (the per-identity loop is exited with exactly this
one request in the trace), and — when the threshold is not yet exceeded —
the loop resumes after the inter-cycle sleep with the full identity list. -/
theorem c7_transport_error_cycle_abort (w : World) (ws : List World)
    (tok : JValue) (tr : ErrorTracker) (uid : String) (rest : List String)
    (msg : String) (hf : w.fetch tok uid = .raise msg)
    (hok : tr.intervals_with_errors + 1 ≤ tr.max_intervals_with_errors) :
    runUsers w tok tr (uid :: rest) =
      (.completed tok
        ⟨tr.intervals_with_errors + 1, tr.max_intervals_with_errors⟩,
       [.fetchCall tok uid,
        .procError ("Exception on user data request, aborting update: "
          ++ msg)])
    ∧ runCycles (uid :: rest) tok tr (w :: ws) =
      ((runCycles (uid :: rest) tok
          ⟨tr.intervals_with_errors + 1, tr.max_intervals_with_errors⟩
          ws).1,
       [.fetchCall tok uid,
        .procError ("Exception on user data request, aborting update: "
          ++ msg),
        .sleep]
        ++ (runCycles (uid :: rest) tok
            ⟨tr.intervals_with_errors + 1, tr.max_intervals_with_errors⟩
            ws).2) := by
  have hc : ¬ tr.intervals_with_errors + 1 > tr.max_intervals_with_errors :=
    by omega
  have h1 : runUsers w tok tr (uid :: rest) =
      (.completed tok
        ⟨tr.intervals_with_errors + 1, tr.max_intervals_with_errors⟩,
       [.fetchCall tok uid,
        .procError ("Exception on user data request, aborting update: "
          ++ msg)]) := by
    simp [runUsers, stepUser, ErrorTracker.process_error, hf, hc]
  refine ⟨h1, ?_⟩
  simp only [runCycles]
  rw [h1]
  simp only at *
  rfl

/-- C7 witness: under `wErr` with identities "1" and "2", identity "2" is
never fetched in the aborted cycle, and a following cycle re-runs the full
list. -/
theorem c7_transport_error_cycle_abort_witness :
    runUsers wErr (.str "t0") (ErrorTracker.init 5) ["1", "2"]
        = (.completed (.str "t0") ⟨0 + 1, 5⟩,
           [.fetchCall (.str "t0") "1",
            .procError ("Exception on user data request, aborting update: "
              ++ "boom")])
    ∧ runCycles ["1", "2"] (.str "t0") (ErrorTracker.init 5) [wErr, wClean]
        = ((runCycles ["1", "2"] (.str "t0") ⟨0 + 1, 5⟩ [wClean]).1,
           [.fetchCall (.str "t0") "1",
            .procError ("Exception on user data request, aborting update: "
              ++ "boom"),
            .sleep]
            ++ (runCycles ["1", "2"] (.str "t0") ⟨0 + 1, 5⟩ [wClean]).2) :=
  c7_transport_error_cycle_abort wErr [wClean] (.str "t0")
    (ErrorTracker.init 5) "1" ["2"] "boom" rfl (by decide)

/-! ## Non-200/401 statuses: warn and skip the identity (C8) -/

/-- C8: a fetch — or the retried fetch after a 401-triggered refresh — that
returns a status other than 200 and 401 produces exactly a warning event
carrying the status and the response body, and the loop goes on to the next
identity with the tracker unchanged: the skipped identity contributes no
gauge update and no `process_error` call to the trace. -/
theorem c8_http_error_skips_identity :
    (∀ (w : World) (tok : JValue) (tr : ErrorTracker) (uid : String)
        (rest : List String) (r : HttpResponse),
      w.fetch tok uid = .resp r → r.statusCode ≠ 200 →
      r.statusCode ≠ 401 →
      runUsers w tok tr (uid :: rest) =
        ((runUsers w tok tr rest).1,
         Event.fetchCall tok uid
           :: Event.warnHttp uid r.statusCode r.content
           :: (runUsers w tok tr rest).2))
    ∧ (∀ (w : World) (tok : JValue) (tr : ErrorTracker) (uid : String)
        (rest : List String) (r r2 : HttpResponse) (newTok : JValue),
      w.fetch tok uid = .resp r → r.statusCode = 401 →
      get_token w.tokenResponse = .ok newTok →
      w.fetch newTok uid = .resp r2 → r2.statusCode ≠ 200 →
      r2.statusCode ≠ 401 →
      runUsers w tok tr (uid :: rest) =
        ((runUsers w newTok tr rest).1,
         Event.fetchCall tok uid :: Event.warnAuth :: Event.tokenCall
           :: Event.fetchCall newTok uid
           :: Event.warnHttp uid r2.statusCode r2.content
           :: (runUsers w newTok tr rest).2)) := by
  constructor
  · intro w tok tr uid rest r hf h200 h401
    simp [runUsers, stepUser, afterAuth, StepResult.prependEvs,
          hf, h200, h401]
  · intro w tok tr uid rest r r2 newTok hf h401 hgt hf2 h200b h401b
    simp [runUsers, stepUser, afterAuth, StepResult.prependEvs,
          hf, h401, hgt, hf2, h200b, h401b]

/-- C8 witness: under `wHttp500` each identity is fetched, warned about with
status 500 and body "server error", and skipped; the cycle completes with
the tracker untouched and no gauge update or `process_error` in the trace. -/
theorem c8_http_error_skips_identity_witness :
    runUsers wHttp500 (.str "t0") (ErrorTracker.init 5) ["1", "2"]
      = ((runUsers wHttp500 (.str "t0") (ErrorTracker.init 5) ["2"]).1,
         Event.fetchCall (.str "t0") "1"
           :: Event.warnHttp "1" 500 "server error"
           :: (runUsers wHttp500 (.str "t0") (ErrorTracker.init 5)
              ["2"]).2) :=
  c8_http_error_skips_identity.1 wHttp500 (.str "t0") (ErrorTracker.init 5)
    "1" ["2"] ⟨500, .obj [], "server error"⟩ rfl (by decide) (by decide)

/-! ## Mid-run token refresh failure crashes the process (C10) -/

/-- C10: when a fetch gets 401 and the token endpoint then answers with any
non-200 status, `get_token` raises `ValueError("Failed to fetch token.")`,
which propagates uncaught out of the refresh loop: the process terminates
by crash, the error counter sees no `process_error` call, and no remaining
identity of the cycle is fetched — the trace of the whole cycle is the one
user request, the auth warning and the one token-endpoint call. -/
theorem c10_token_refresh_failure_crashes (w : World) (tok : JValue)
    (tr : ErrorTracker) (uid : String) (rest : List String)
    (r : HttpResponse) (hf : w.fetch tok uid = .resp r)
    (h401 : r.statusCode = 401)
    (htk : w.tokenResponse.statusCode ≠ 200) :
    runUsers w tok tr (uid :: rest) =
      (.crashed (.valueError "Failed to fetch token."),
       [.fetchCall tok uid, .warnAuth, .tokenCall])
    ∧ ([Event.fetchCall tok uid, .warnAuth, .tokenCall].countP
        Event.isProcError = 0) := by
  have hgt : get_token w.tokenResponse =
      .error (.valueError "Failed to fetch token.") := by
    simp [get_token, htk]
  constructor
  · simp [runUsers, stepUser, hf, h401, hgt]
  · simp [List.countP_cons, Event.isProcError]

/-- C10 witness: under `wTokenDown` (401 on the user request, 500 from the
token endpoint) the cycle with identities "1" and "2" crashes during the
refresh for "1". -/
theorem c10_token_refresh_failure_crashes_witness :
    runUsers wTokenDown (.str "t0") (ErrorTracker.init 5) ["1", "2"]
        = (.crashed (.valueError "Failed to fetch token."),
           [.fetchCall (.str "t0") "1", .warnAuth, .tokenCall])
    ∧ ([Event.fetchCall (.str "t0") "1", .warnAuth, .tokenCall].countP
        Event.isProcError = 0) :=
  c10_token_refresh_failure_crashes wTokenDown (.str "t0")
    (ErrorTracker.init 5) "1" ["2"] ⟨401, .obj [], "unauthorized"⟩
    rfl rfl (by decide)

/-! ## The flattened stats mapping and its leftover nested object (C5) -/

theorem lookup?_setKey_self (o : List (String × JValue)) (k : String)
    (v : JValue) : lookup? (setKey o k v) k = some v := by
  induction o with
  | nil => simp [setKey, lookup?]
  | cons p rest ih =>
      obtain ⟨k', v'⟩ := p
      by_cases h : k' = k <;> simp [setKey, lookup?, h, ih]

theorem lookup?_setKey_ne (o : List (String × JValue)) (k : String)
    (v : JValue) (key : String) (h : k ≠ key) :
    lookup? (setKey o k v) key = lookup? o key := by
  induction o with
  | nil => simp [setKey, lookup?, h]
  | cons p rest ih =>
      obtain ⟨k', v'⟩ := p
      by_cases hk : k' = k
      · subst hk
        simp [setKey, lookup?, h]
      · simp [setKey, lookup?, hk, ih]

theorem flattenGrades_cons (s : List (String × JValue))
    (p : String × JValue) (rest : List (String × JValue)) :
    flattenGrades s (p :: rest)
      = flattenGrades (setKey s ("grade_counts_" ++ p.1) p.2) rest := rfl

theorem lookup?_flattenGrades_notin (gc : List (String × JValue)) :
    ∀ (s : List (String × JValue)) (key : String),
      (∀ p ∈ gc, ("grade_counts_" ++ p.1) ≠ key) →
      lookup? (flattenGrades s gc) key = lookup? s key := by
  induction gc with
  | nil => intro s key _; rfl
  | cons p rest ih =>
      intro s key h
      rw [flattenGrades_cons,
          ih _ key (fun q hq => h q (List.mem_cons_of_mem p hq)),
          lookup?_setKey_ne _ _ _ _ (h p (List.mem_cons_self p rest))]

theorem grade_counts_append_inj (a b : String)
    (h : "grade_counts_" ++ a = "grade_counts_" ++ b) : a = b := by
  have hd := congrArg String.data h
  simp [String.data_append] at hd
  exact String.ext hd

theorem grade_counts_append_ne (k : String) :
    ("grade_counts_" ++ k) ≠ "grade_counts" := by
  intro h
  have hl := congrArg String.length h
  simp [String.length_append] at hl
  have h13 : "grade_counts_".length = 13 := rfl
  have h12 : "grade_counts".length = 12 := rfl
  omega

theorem lookup?_flattenGrades_mem (gc : List (String × JValue)) :
    ∀ (s : List (String × JValue)) (g : String) (v : JValue),
      (g, v) ∈ gc → (gc.map Prod.fst).Nodup →
      lookup? (flattenGrades s gc) ("grade_counts_" ++ g) = some v := by
  induction gc with
  | nil => intro s g v hmem _; exact absurd hmem (List.not_mem_nil _)
  | cons p rest ih =>
      intro s g v hmem hnd
      rw [flattenGrades_cons]
      have hnd' := hnd
      rw [List.map_cons, List.nodup_cons] at hnd'
      rcases List.mem_cons.mp hmem with heq | hmem'
      · have hp1 : p.1 = g := by rw [← heq]
        have hni : ∀ q ∈ rest,
            ("grade_counts_" ++ q.1) ≠ ("grade_counts_" ++ g) := by
          intro q hq hcontra
          have hq1 : q.1 = g := grade_counts_append_inj q.1 g hcontra
          exact hnd'.1 (hp1 ▸ hq1 ▸ List.mem_map_of_mem Prod.fst hq)
        rw [lookup?_flattenGrades_notin rest _ _ hni, hp1, ← heq]
        exact lookup?_setKey_self s ("grade_counts_" ++ g) v
      · exact ih _ g v hmem' hnd'.2

/-- C5 (amended): for every valid record whose grade-count dict has keys
without repetition and contains the pair `(g, v)`, the mapper's output
contains the key `grade_counts_g` with value `v` — but it also still
contains the top-level `grade_counts` key, bound to the original nested
object, because the code never deletes it: the output is not a flat
mapping.  The leftover key is harmless downstream only because
`grade_counts` is not among the gauge keys, so it is silently ignored. -/
theorem c5_grade_counts_flattening (d stats0 gc : List (String × JValue))
    (lv cur : JValue) (g : String) (v : JValue)
    (h1 : lookup? d "statistics" = some (.obj stats0))
    (h2 : lookup? stats0 "level" = some lv)
    (h3 : getItem lv "current" = .ok cur)
    (h4 : lookup? (setKey stats0 "level" cur) "grade_counts"
        = some (.obj gc))
    (hmem : (g, v) ∈ gc)
    (hnd : (gc.map Prod.fst).Nodup) :
    processRecord (.obj d)
        = .ok (flattenGrades (setKey stats0 "level" cur) gc)
    ∧ lookup? (flattenGrades (setKey stats0 "level" cur) gc)
        ("grade_counts_" ++ g) = some v
    ∧ lookup? (flattenGrades (setKey stats0 "level" cur) gc)
        "grade_counts" = some (.obj gc)
    ∧ "grade_counts" ∉ gauges := by
  refine ⟨?_, ?_, ?_, by decide⟩
  · have e1 : getItem (.obj d) "statistics" = .ok (.obj stats0) := by
      simp [getItem, h1]
    have e2 : getItem (.obj stats0) "level" = .ok lv := by
      simp [getItem, h2]
    simp [processRecord, e1, e2, h3, h4]
  · exact lookup?_flattenGrades_mem gc _ g v hmem hnd
  · rw [lookup?_flattenGrades_notin gc _ _
        (fun p _ => grade_counts_append_ne p.1), h4]

/-- C5 counterexample: on the reference record the mapper's output does
contain `grade_counts_s = 3` and `grade_counts_ss = 1`, but it still has a
top-level `grade_counts` key bound to a nested object — the claim says that
key is absent and the output has no nested objects. -/
theorem c5_nested_grade_counts_counterexample :
    processRecord sampleRecord
        = .ok [("pp", .num 100), ("level", .num 42),
               ("grade_counts", .obj [("s", .num 3), ("ss", .num 1)]),
               ("grade_counts_s", .num 3), ("grade_counts_ss", .num 1)]
    ∧ (lookup? [("pp", .num 100), ("level", .num 42),
               ("grade_counts", .obj [("s", .num 3), ("ss", .num 1)]),
               ("grade_counts_s", .num 3), ("grade_counts_ss", .num 1)]
        "grade_counts").isSome = true :=
  ⟨rfl, rfl⟩

/-- C5 witness: the amended statement evaluated on the reference record,
for the grade pair `("s", 3)`. -/
theorem c5_grade_counts_flattening_witness :
    processRecord
        (.obj [("id", .num 7), ("username", .str "foo"),
               ("statistics", .obj
                 [("pp", .num 100),
                  ("level", .obj [("current", .num 42)]),
                  ("grade_counts",
                    .obj [("s", .num 3), ("ss", .num 1)])])])
        = .ok (flattenGrades
            (setKey [("pp", .num 100),
                     ("level", .obj [("current", .num 42)]),
                     ("grade_counts", .obj [("s", .num 3), ("ss", .num 1)])]
              "level" (.num 42))
            [("s", .num 3), ("ss", .num 1)])
    ∧ lookup? (flattenGrades
            (setKey [("pp", .num 100),
                     ("level", .obj [("current", .num 42)]),
                     ("grade_counts", .obj [("s", .num 3), ("ss", .num 1)])]
              "level" (.num 42))
            [("s", .num 3), ("ss", .num 1)])
        ("grade_counts_" ++ "s") = some (.num 3)
    ∧ lookup? (flattenGrades
            (setKey [("pp", .num 100),
                     ("level", .obj [("current", .num 42)]),
                     ("grade_counts", .obj [("s", .num 3), ("ss", .num 1)])]
              "level" (.num 42))
            [("s", .num 3), ("ss", .num 1)])
        "grade_counts" = some (.obj [("s", .num 3), ("ss", .num 1)])
    ∧ "grade_counts" ∉ gauges :=
  c5_grade_counts_flattening
    [("id", .num 7), ("username", .str "foo"),
     ("statistics", .obj
       [("pp", .num 100),
        ("level", .obj [("current", .num 42)]),
        ("grade_counts", .obj [("s", .num 3), ("ss", .num 1)])])]
    [("pp", .num 100), ("level", .obj [("current", .num 42)]),
     ("grade_counts", .obj [("s", .num 3), ("ss", .num 1)])]
    [("s", .num 3), ("ss", .num 1)]
    (.obj [("current", .num 42)]) (.num 42) "s" (.num 3)
    rfl rfl rfl rfl (List.mem_cons_self _ _) (by simp)

/-! ## Metric sink: fixed keys, fixed labels (C9) -/

/-- C9: for every `(identity, key, value)` routed into the sink, a key
outside the 15 statically-defined gauge keys changes no gauge and raises no
error, while a key among them sets exactly one gauge, labeled with exactly
the two labels `user_id` and `username` bound to the record's id and
display name, to the given value; the gauge-key set has exactly 15 entries
and the label list is exactly `["user_id", "username"]`. -/
theorem c9_metric_sink (data : JValue) (key : String) (v uid uname : JValue)
    (hid : getItem data "id" = .ok uid)
    (hn : getItem data "username" = .ok uname) :
    sinkRecord data key v =
      (if key ∈ gauges
        then .ok [.gaugeSet key [("user_id", uid), ("username", uname)] v]
        else .ok [])
    ∧ gauges.length = 15
    ∧ labels = ["user_id", "username"] := by
  refine ⟨?_, rfl, rfl⟩
  by_cases hk : key ∈ gauges <;> simp [sinkRecord, hk, hid, hn]

/-- C9 witness: on the reference record, the known key "pp" sets exactly
one gauge with the two identity labels; an unknown key is a silent no-op. -/
theorem c9_metric_sink_witness :
    sinkRecord sampleRecord "pp" (.num 100)
        = .ok [.gaugeSet "pp"
            [("user_id", .num 7), ("username", .str "foo")] (.num 100)]
    ∧ sinkRecord sampleRecord "unknown_key" (.num 1) = .ok [] := by
  have h1 := c9_metric_sink sampleRecord "pp" (.num 100)
    (.num 7) (.str "foo") rfl rfl
  have h2 := c9_metric_sink sampleRecord "unknown_key" (.num 1)
    (.num 7) (.str "foo") rfl rfl
  refine ⟨?_, ?_⟩
  · rw [h1.1]; rfl
  · rw [h2.1]; rfl
